import Mathlib

/-!
Shallow embedding of `deploy.py`, a single-shot smart-contract deployment
script (connect, derive account, build, sign, submit, wait for receipt,
read back code).  The external world (JSON-RPC node, key derivation,
ABI encoding, filesystem artifact) is modelled by an `Env` record whose
fields give the responses the libraries would return; `run` is the
straight-line script over that environment, recording the JSON-RPC calls
it issues, the lines it prints, the transactions it builds, the exception
it raises (if any) and the process exit code.
-/

/-- JSON-RPC calls the script issues, in the order the source makes them.
`waitForReceipt` records the timeout passed to it. -/
inductive NetCall where
  | isConnectedCall : NetCall
  | getBalance : NetCall
  | getChainId : NetCall
  | getBlockNumber : NetCall
  | getTransactionCount : NetCall
  | sendRawTransaction : NetCall
  | waitForReceipt : Nat → NetCall
  | getCode : NetCall
deriving DecidableEq, Repr

/-- The exceptions a run can end with.  The first two are the script's own
`raise Exception(...)` sites (fixed message text); the rest are raised by the
libraries the script calls and carry the library's message. -/
inductive DeployError where
  | networkUnreachable : DeployError
  | keyMissing : DeployError
  | invalidKey : String → DeployError
  | artifactError : String → DeployError
  | encodingError : String → DeployError
  | submissionRejected : String → DeployError
  | confirmationTimeout : String → DeployError
deriving DecidableEq, Repr

/-- `str(e)` for each exception, as the catch-all handler would print it. -/
def errMsg : DeployError → String
  | .networkUnreachable => "Cannot connect to Reltime RPC"
  | .keyMissing => "DEPLOYER_PRIVATE_KEY not set in .env"
  | .invalidKey m => m
  | .artifactError m => m
  | .encodingError m => m
  | .submissionRejected m => m
  | .confirmationTimeout m => m

/-- An unsigned contract-creation transaction, as assembled by
`constructor.build_transaction({...})`: `to` absent (contract creation),
`data` is bytecode followed by the ABI-encoded constructor arguments. -/
structure UnsignedTx where
  fromAddr : String
  nonce : Nat
  gas : Nat
  gasPrice : Nat
  data : List Nat
  toAddr : Option String
deriving DecidableEq, Repr

/-- The contract artifact loaded from `DataIntegrity.json` (only the field
the transaction uses matters to the model). -/
structure Artifact where
  bytecode : List Nat
deriving DecidableEq, Repr

/-- The Transaction Builder: `constructor.build_transaction({'from': ...,
'nonce': ..., 'gas': ..., 'gasPrice': ...})` assembling the creation
transaction from the account, nonce, gas fields and data.  It is total:
no input value, zero gas price included, is rejected. -/
def buildTransaction (fromAddr : String) (nonce gas gasPrice : Nat)
    (data : List Nat) : UnsignedTx :=
  { fromAddr := fromAddr, nonce := nonce, gas := gas, gasPrice := gasPrice,
    data := data, toAddr := none }

/-- Key normalization from the source: `if not private_key.startswith('0x'):
private_key = '0x' + private_key`.  Python strings are modelled as
character lists. -/
def normalizeKey (s : List Char) : List Char :=
  if s.take 2 = ['0', 'x'] then s else '0' :: 'x' :: s

/-- `w3.eth.account.from_key(private_key)` after the script's prefix
normalization; `derive` is the library's address derivation. -/
def fromKey (derive : List Char → String) (s : List Char) : String :=
  derive (normalizeKey s)

/-- The timeout the script passes to `wait_for_transaction_receipt`. -/
def receiptTimeout : Nat := 300

/-- The behaviour of everything outside the script: environment variables,
the JSON-RPC node, the artifact file, key derivation, ABI encoding, signing.
Fallible library steps are `Except` with the library's error message. -/
structure Env where
  rpcUrlVar : Option String
  keyVar : Option (List Char)
  connected : Bool
  balance : Nat
  chainId : Nat
  blockNumber : Nat
  derive : List Char → Except String String
  artifact : Except String Artifact
  encodeArgs : Except String (List Nat)
  txCount : Nat
  signRaw : UnsignedTx → List Nat
  sendResult : Except String String
  receipt : Option String
  timeoutMsg : String
  codeAt : String → List Nat

/-- Everything observable about one run of the script: the JSON-RPC calls
issued in order, the lines printed, the unsigned transactions built, the
`contract_address` and `code` variables (once assigned), the exception the
run ended with (if any) and the process exit code. -/
structure RunResult where
  calls : List NetCall
  output : List String
  builtTxs : List UnsignedTx
  contractAddress : Option String
  deployedCode : Option (List Nat)
  result : Except DeployError Unit
  exitCode : Nat
deriving Repr

/-- The `except Exception` handler: print one message holding `str(e)` and
`sys.exit(1)`. -/
def failRes (calls : List NetCall) (out : List String)
    (built : List UnsignedTx) (e : DeployError) : RunResult :=
  { calls := calls
    output := out ++ ["❌ Deployment failed: " ++ errMsg e]
    builtTxs := built
    contractAddress := none
    deployedCode := none
    result := .error e
    exitCode := 1 }

/-- The script body (`deploy.py` lines 19–97), line for line: connection
check, key lookup and normalization, account derivation, diagnostic
balance / chain-id / block-number queries, artifact load, ABI encoding of
the constructor arguments (eager, inside `Contract.constructor` at line
64, so before the nonce fetch at line 67), nonce fetch and transaction
build, signing, broadcast, receipt wait with timeout 300, and a final
`get_code` read whose length is printed.  Any exception falls into the
single catch-all handler `failRes`. -/
def run (env : Env) : RunResult :=
  if env.connected then
    match env.keyVar with
    | none => failRes [.isConnectedCall] [] [] .keyMissing
    | some rawKey =>
      match env.derive (normalizeKey rawKey) with
      | .error m => failRes [.isConnectedCall] [] [] (.invalidKey m)
      | .ok address =>
        let out1 : List String :=
          ["Deployer address: " ++ address,
           "Deployer balance: " ++ toString env.balance ++ " ETH",
           "Chain ID: " ++ toString env.chainId,
           "Current block: " ++ toString env.blockNumber]
        let calls1 : List NetCall :=
          [.isConnectedCall, .getBalance, .getChainId, .getBlockNumber]
        match env.artifact with
        | .error m => failRes calls1 out1 [] (.artifactError m)
        | .ok art =>
          let out2 := out1 ++ ["Deploying DataIntegrity..."]
          match env.encodeArgs with
          | .error m => failRes calls1 out2 [] (.encodingError m)
          | .ok enc =>
            let nonce := env.txCount
            let calls2 := calls1 ++ [.getTransactionCount]
            let tx := buildTransaction address nonce 10000000 0
              (art.bytecode ++ enc)
            let _raw := env.signRaw tx
            let calls3 := calls2 ++ [.sendRawTransaction]
            match env.sendResult with
            | .error m => failRes calls3 out2 [tx] (.submissionRejected m)
            | .ok txHash =>
              let out3 := out2 ++
                ["Transaction hash: " ++ txHash, "Waiting for receipt..."]
              let calls4 := calls3 ++ [.waitForReceipt receiptTimeout]
              match env.receipt with
              | none => failRes calls4 out3 [tx]
                  (.confirmationTimeout env.timeoutMsg)
              | some addr =>
                let out4 := out3 ++
                  ["✅ DataIntegrity deployed to: " ++ addr,
                   "CONTRACT_ADDRESS=" ++ addr]
                let code := env.codeAt addr
                { calls := calls4 ++ [.getCode]
                  output := out4 ++
                    ["✅ Contract verified on chain (code length: " ++
                       toString code.length ++ " bytes)",
                     "🎉 Deployment complete!"]
                  builtTxs := [tx]
                  contractAddress := some addr
                  deployedCode := some code
                  result := .ok ()
                  exitCode := 0 }
  else
    failRes [.isConnectedCall] [] [] .networkUnreachable

/-- A fully successful environment: connected node, key set, derivation,
artifact, encoding, submission and receipt all succeed; the code read back
at the reported address is non-empty. -/
def happyEnv : Env :=
  { rpcUrlVar := none
    keyVar := some ['a', 'b']
    connected := true
    balance := 0
    chainId := 32323
    blockNumber := 5
    derive := fun _ => .ok "0xFEED"
    artifact := .ok { bytecode := [1, 2, 3] }
    encodeArgs := .ok [4]
    txCount := 7
    signRaw := fun _ => [9]
    sendResult := .ok "0xHASH"
    receipt := some "0xABC"
    timeoutMsg := "is not in the chain after 300 seconds"
    codeAt := fun _ => [6, 6] }

/-- `happyEnv` except the code read back at the reported address is empty. -/
def envEmptyCode : Env := { happyEnv with codeAt := fun _ => [] }

/-- `happyEnv` except ABI encoding of the constructor arguments fails. -/
def envEncodeFail : Env := { happyEnv with encodeArgs := .error "mismatch" }

/-- `happyEnv` except no receipt ever arrives within the timeout. -/
def envTimeout : Env := { happyEnv with receipt := none }

/-- `happyEnv` except the node rejects the broadcast. -/
def envSendFail : Env := { happyEnv with sendResult := .error "nonce too low" }

/-- C1 (counterexample): a run whose receipt reports address `0xABC` but
whose deployed code reads back empty still ends as a success: the address
is reported, the exit code is 0, and no failure of any kind is raised —
the script never checks the code it reads back for emptiness. -/
theorem emptyCode_still_success :
    (run envEmptyCode).deployedCode = some [] ∧
    (run envEmptyCode).contractAddress = some "0xABC" ∧
    (run envEmptyCode).result = .ok () ∧
    (run envEmptyCode).exitCode = 0 := by
  refine ⟨rfl, rfl, rfl, rfl⟩

/-- C1 (amended): after a receipt reports a contract address, the script
does read back the code at that address (`get_code`) and records it, but it
only reports the code's length: the address is reported as deployed and the
run ends with exit code 0 whatever the code is, empty included; there is no
verification failure outcome. -/
theorem code_readback_never_fails (env : Env) (a : String)
    (h : (run env).contractAddress = some a) :
    NetCall.getCode ∈ (run env).calls ∧
    (run env).deployedCode = some (env.codeAt a) ∧
    (run env).result = .ok () ∧
    (run env).exitCode = 0 := by
  unfold run at h ⊢
  repeat' split at h
  all_goals simp_all [failRes]

theorem code_readback_never_fails_witness :
    NetCall.getCode ∈ (run envEmptyCode).calls ∧
    (run envEmptyCode).deployedCode = some (envEmptyCode.codeAt "0xABC") ∧
    (run envEmptyCode).result = .ok () ∧
    (run envEmptyCode).exitCode = 0 :=
  code_readback_never_fails envEmptyCode "0xABC" rfl

/-- C2: receipt polling is bounded: every `waitForReceipt` call the script
issues carries the timeout 300, and a run that reaches the wait without a
receipt arriving ends in the `confirmationTimeout` exception — a
constructor of `DeployError` distinct from `submissionRejected` and every
other failure kind. -/
theorem receipt_wait_bounded_timeout (env : Env) :
    receiptTimeout = 300 ∧
    (∀ t, NetCall.waitForReceipt t ∈ (run env).calls → t = 300) ∧
    (NetCall.waitForReceipt 300 ∈ (run env).calls → env.receipt = none →
      (run env).result = .error (.confirmationTimeout env.timeoutMsg)) ∧
    (∀ m m', (DeployError.confirmationTimeout m ≠ .submissionRejected m') ∧
      DeployError.confirmationTimeout m ≠ .networkUnreachable) := by
  refine ⟨rfl, ?_, ?_, fun m m' => by simp⟩
  · intro t ht
    unfold run at ht
    repeat' split at ht
    all_goals simp_all [failRes, receiptTimeout]
  · intro hc hr
    unfold run at hc ⊢
    repeat' split at hc
    all_goals simp_all [failRes]

theorem receipt_wait_bounded_timeout_witness :
    (NetCall.waitForReceipt 300 ∈ (run envTimeout).calls → envTimeout.receipt = none →
      (run envTimeout).result = .error (.confirmationTimeout envTimeout.timeoutMsg)) ∧
    (run envTimeout).result = .error (.confirmationTimeout envTimeout.timeoutMsg) :=
  ⟨(receipt_wait_bounded_timeout envTimeout).2.2.1,
   (receipt_wait_bounded_timeout envTimeout).2.2.1 (by decide) rfl⟩

/-- C3 (counterexample): with a constructor-argument encoding mismatch the
run does fail with the encoding error, but only after four network calls
(connection check, balance, chain id, block number) have already been
issued — a stub network client observes four calls, not zero. -/
theorem encoding_error_sees_network_calls :
    (run envEncodeFail).result = .error (.encodingError "mismatch") ∧
    (run envEncodeFail).calls =
      [.isConnectedCall, .getBalance, .getChainId, .getBlockNumber] ∧
    (run envEncodeFail).calls.length = 4 := by
  refine ⟨rfl, rfl, rfl⟩

/-- C3 (amended): a constructor-argument encoding mismatch fails with the
encoding error before the nonce is fetched and before the transaction is
built, signed or broadcast — no `getTransactionCount`, no
`sendRawTransaction`, no receipt wait, no transaction built — but after
the connection check, balance, chain-id and block-number network calls
have been issued. -/
theorem encoding_error_before_broadcast (env : Env) : ∀ m,
    (run env).result = .error (.encodingError m) →
    (run env).calls =
      [.isConnectedCall, .getBalance, .getChainId, .getBlockNumber] ∧
    NetCall.getTransactionCount ∉ (run env).calls ∧
    NetCall.sendRawTransaction ∉ (run env).calls ∧
    (∀ t, NetCall.waitForReceipt t ∉ (run env).calls) ∧
    (run env).builtTxs = [] := by
  unfold run
  repeat' split
  all_goals intro m hm
  all_goals simp_all [failRes]

theorem encoding_error_before_broadcast_witness :
    NetCall.getTransactionCount ∉ (run envEncodeFail).calls ∧
    NetCall.sendRawTransaction ∉ (run envEncodeFail).calls ∧
    (run envEncodeFail).builtTxs = [] :=
  ⟨(encoding_error_before_broadcast envEncodeFail "mismatch" rfl).2.1,
   (encoding_error_before_broadcast envEncodeFail "mismatch" rfl).2.2.1,
   (encoding_error_before_broadcast envEncodeFail "mismatch" rfl).2.2.2.2⟩

/-- C4: every failure is terminal and nothing is retried: the raw
transaction is broadcast at most once in every run, a failed run exits 1
with no contract address or code ever recorded after the failure, a
submission rejection is never followed by a receipt wait or a code read,
and a receipt timeout is never followed by a code read. -/
theorem failure_terminal_no_retry (env : Env) :
    (run env).calls.count .sendRawTransaction ≤ 1 ∧
    (∀ e, (run env).result = .error e →
      (run env).exitCode = 1 ∧ (run env).contractAddress = none ∧
      (run env).deployedCode = none) ∧
    (∀ m, (run env).result = .error (.submissionRejected m) →
      (∀ t, NetCall.waitForReceipt t ∉ (run env).calls) ∧
      NetCall.getCode ∉ (run env).calls) ∧
    (∀ m, (run env).result = .error (.confirmationTimeout m) →
      NetCall.getCode ∉ (run env).calls) := by
  unfold run
  repeat' split
  all_goals refine ⟨by simp [failRes], ?_, ?_, ?_⟩
  all_goals intro m hm
  all_goals simp_all [failRes]

theorem failure_terminal_no_retry_witness :
    (run envSendFail).calls.count .sendRawTransaction ≤ 1 ∧
    (run envSendFail).exitCode = 1 ∧
    (∀ t, NetCall.waitForReceipt t ∉ (run envSendFail).calls) :=
  ⟨(failure_terminal_no_retry envSendFail).1,
   ((failure_terminal_no_retry envSendFail).2.1 _ rfl).1,
   ((failure_terminal_no_retry envSendFail).2.2.1 "nonce too low" rfl).1⟩

/-- C5: the nonce placed in any transaction the run builds is exactly the
transaction count the node reports in that same run (fetched at build
time), the transaction-count query is issued whenever a transaction is
built, and at most one transaction is built per run — exactly one once the
broadcast happens. -/
theorem nonce_fresh_single_build (env : Env) :
    (run env).builtTxs.length ≤ 1 ∧
    (∀ tx, tx ∈ (run env).builtTxs → tx.nonce = env.txCount) ∧
    ((run env).builtTxs ≠ [] →
      NetCall.getTransactionCount ∈ (run env).calls) ∧
    (NetCall.sendRawTransaction ∈ (run env).calls →
      (run env).builtTxs.length = 1) := by
  unfold run
  repeat' split
  all_goals refine ⟨by simp [failRes], ?_, ?_, ?_⟩
  all_goals first
    | (intro tx htx; simp_all [failRes, buildTransaction])
    | (intro h; simp_all [failRes])

theorem nonce_fresh_single_build_witness :
    (run happyEnv).builtTxs.length ≤ 1 ∧
    (buildTransaction "0xFEED" 7 10000000 0 ([1, 2, 3] ++ [4])).nonce =
      happyEnv.txCount ∧
    (run happyEnv).builtTxs.length = 1 :=
  ⟨(nonce_fresh_single_build happyEnv).1,
   (nonce_fresh_single_build happyEnv).2.1 _ (by decide),
   (nonce_fresh_single_build happyEnv).2.2.2 (by decide)⟩

/-- C6: deriving an account from a key that carries the standard `0x`
prefix and from the same key without it yields the same result: the script
prepends the prefix exactly when it is absent, so the derivation function
is applied to the same normalized key either way. -/
theorem fromKey_prefix_agnostic (derive : List Char → String)
    (k : List Char) (h : k.take 2 ≠ ['0', 'x']) :
    fromKey derive ('0' :: 'x' :: k) = fromKey derive k := by
  unfold fromKey normalizeKey
  simp [h]

theorem fromKey_prefix_agnostic_witness :
    (['a', 'b'].take 2 ≠ ['0', 'x']) ∧
    fromKey (fun l => String.mk l) ('0' :: 'x' :: ['a', 'b']) =
      fromKey (fun l => String.mk l) ['a', 'b'] :=
  ⟨by decide, fromKey_prefix_agnostic (fun l => String.mk l) ['a', 'b']
    (by decide)⟩

/-- C7: the balance and chain-id queries are purely diagnostic: changing
the balance the node reports (zero included) and the chain id changes
nothing observable about the run except the printed text — not the
outcome, the exit code, the calls issued, the transactions built, nor the
reported address or code. -/
theorem balance_chainId_diagnostic_only (env : Env) (b c : Nat) :
    (run { env with balance := b, chainId := c }).result = (run env).result ∧
    (run { env with balance := b, chainId := c }).exitCode =
      (run env).exitCode ∧
    (run { env with balance := b, chainId := c }).calls = (run env).calls ∧
    (run { env with balance := b, chainId := c }).builtTxs =
      (run env).builtTxs ∧
    (run { env with balance := b, chainId := c }).contractAddress =
      (run env).contractAddress ∧
    (run { env with balance := b, chainId := c }).deployedCode =
      (run env).deployedCode := by
  rcases env with ⟨rpc, key, conn, bal, cid, bn, der, art, enc, txc, sgn,
    snd, rcp, tmsg, code⟩
  unfold run
  dsimp only
  repeat' split
  all_goals simp_all [failRes]

/-- C8: the Transaction Builder accepts a zero gas price (it is total, so
nothing is rejected), and the transaction built with gas price 0 agrees
with the one built from the same other inputs and a positive gas price on
every field — from-address, nonce, gas limit, data, to-address — except
the gas price itself, where the two really do differ. -/
theorem buildTransaction_gasPrice_frame (a : String) (n g p : Nat)
    (d : List Nat) (hp : 0 < p) :
    (buildTransaction a n g 0 d).gasPrice = 0 ∧
    (buildTransaction a n g p d).gasPrice = p ∧
    (buildTransaction a n g 0 d).fromAddr =
      (buildTransaction a n g p d).fromAddr ∧
    (buildTransaction a n g 0 d).nonce = (buildTransaction a n g p d).nonce ∧
    (buildTransaction a n g 0 d).gas = (buildTransaction a n g p d).gas ∧
    (buildTransaction a n g 0 d).data = (buildTransaction a n g p d).data ∧
    (buildTransaction a n g 0 d).toAddr =
      (buildTransaction a n g p d).toAddr ∧
    (buildTransaction a n g 0 d).gasPrice ≠
      (buildTransaction a n g p d).gasPrice := by
  refine ⟨rfl, rfl, rfl, rfl, rfl, rfl, rfl, ?_⟩
  simpa [buildTransaction] using hp.ne

theorem buildTransaction_gasPrice_frame_witness :
    (0 < 5) ∧
    (buildTransaction "0xFEED" 7 10000000 0 [4]).gasPrice = 0 ∧
    (buildTransaction "0xFEED" 7 10000000 0 [4]).data =
      (buildTransaction "0xFEED" 7 10000000 5 [4]).data :=
  ⟨by decide, (buildTransaction_gasPrice_frame "0xFEED" 7 10000000 5 [4]
      (by decide)).1,
    (buildTransaction_gasPrice_frame "0xFEED" 7 10000000 5 [4]
      (by decide)).2.2.2.2.2.1⟩

/-- C9: whatever exception a run ends with — the script's own raises or
any library failure — the single catch-all handler is what the outside
world sees: the run prints one failure line made of a fixed prefix and the
exception's text, and exits with status code 1, the same code for every
failure kind. -/
theorem catchall_handler_uniform (env : Env) : ∀ e,
    (run env).result = .error e →
    (run env).exitCode = 1 ∧
    ("❌ Deployment failed: " ++ errMsg e) ∈ (run env).output := by
  unfold run
  repeat' split
  all_goals intro e he
  all_goals simp_all [failRes]

theorem catchall_handler_uniform_witness :
    (run envSendFail).exitCode = 1 ∧
    ("❌ Deployment failed: " ++ errMsg (.submissionRejected "nonce too low"))
      ∈ (run envSendFail).output :=
  catchall_handler_uniform envSendFail (.submissionRejected "nonce too low")
    rfl

/-- C10: the gas policy is hardcoded: every transaction any run builds —
whatever the environment variables and whatever the node answers — has gas
limit exactly 10000000 and gas price exactly 0. -/
theorem gas_policy_hardcoded (env : Env) (tx : UnsignedTx)
    (h : tx ∈ (run env).builtTxs) :
    tx.gas = 10000000 ∧ tx.gasPrice = 0 := by
  unfold run at h
  repeat' split at h
  all_goals simp_all [failRes, buildTransaction]

theorem gas_policy_hardcoded_witness :
    (buildTransaction "0xFEED" 7 10000000 0 ([1, 2, 3] ++ [4])).gas
        = 10000000 ∧
    (buildTransaction "0xFEED" 7 10000000 0 ([1, 2, 3] ++ [4])).gasPrice
        = 0 :=
  gas_policy_hardcoded happyEnv _ (by decide)
